import Mathlib

/-!
A shallow embedding of the `cb_api_client` Go repository (package `client`):
configuration, HTTP header construction, Basic-Auth credential encoding,
the Subscription JSON codec, the request/response pipelines of the three
client variants (`APIClient`, `BaseClient`, `CleverbridgeClient`), and the
logger.  Pure data and decisions of the Go code are translated into
executable Lean functions; the HTTP wire itself is represented by a mocked
response (status code, body, headers) supplied as input to the pipeline
functions.
-/

namespace CbApi

/-- `CleverbridgeConfig` (struct in the source): client credentials,
base URL and the debug flag. -/
structure CleverbridgeConfig where
  clientID : String
  clientSecret : String
  baseURL : String
  debug : Bool
  deriving Repr, DecidableEq

/-! ### UTF-8 and base64, as used by `encoding/base64.StdEncoding.EncodeToString`
on the bytes of a Go string. -/

/-- UTF-8 encoding of a single Unicode code point, as a list of byte values. -/
def utf8EncodeNat (n : Nat) : List Nat :=
  if n < 128 then [n]
  else if n < 2048 then [192 + n / 64, 128 + n % 64]
  else if n < 65536 then [224 + n / 4096, 128 + n / 64 % 64, 128 + n % 64]
  else [240 + n / 262144, 128 + n / 4096 % 64, 128 + n / 64 % 64, 128 + n % 64]

/-- The bytes of a Go string (Go strings are UTF-8 byte sequences). -/
def utf8Bytes (s : String) : List Nat :=
  (s.toList.map (fun c => utf8EncodeNat c.toNat)).flatten

/-- The standard base64 alphabet used by `base64.StdEncoding`. -/
def base64Alphabet : List Char :=
  "ABCDEFGHIJKLMNOPQRSTUVWXYZabcdefghijklmnopqrstuvwxyz0123456789+/".toList

/-- The base64 digit for a 6-bit value. -/
def base64Digit (n : Nat) : Char := base64Alphabet.getD n 'A'

/-- Chunked base64 encoding of a byte list, with `=` padding,
mirroring `base64.StdEncoding.EncodeToString`. -/
def base64Chunks : List Nat → List Char
  | [] => []
  | [a] => [base64Digit (a / 4), base64Digit (a % 4 * 16), '=', '=']
  | [a, b] => [base64Digit (a / 4), base64Digit (a % 4 * 16 + b / 16),
      base64Digit (b % 16 * 4), '=']
  | a :: b :: c :: rest =>
      base64Digit (a / 4) :: base64Digit (a % 4 * 16 + b / 16) ::
      base64Digit (b % 16 * 4 + c / 64) :: base64Digit (c % 64) :: base64Chunks rest

/-- `base64.StdEncoding.EncodeToString`. -/
def base64Encode (bytes : List Nat) : String := String.mk (base64Chunks bytes)

/-! ### HTTP header state

`net/http`'s `Header.Set(key, value)` canonicalises the key and replaces any
existing values of that key by the single given value.  We model the header
state as an association list from (already canonical) header names to the
list of values held for that name; a fresh request starts with no headers. -/

/-- Header state of an outgoing request: name to list of values. -/
abbrev HeaderState := List (String × List String)

/-- `req.Header.Set(key, value)`: drop every existing entry for `key` and
record the single value `value` for it. -/
def headerSet (h : HeaderState) (key value : String) : HeaderState :=
  h.filter (fun p => p.1 != key) ++ [(key, [value])]

/-- All values carried for a header name (the claim's "exactly one X header"
holds when this list is a singleton). -/
def headerValues (h : HeaderState) (key : String) : List String :=
  ((h.filter (fun p => p.1 == key)).map (fun p => p.2)).flatten

/-- `BaseClient.SendRequest`'s header loop: `for key, value := range
request.Headers { req.Header.Set(key, value) }` applied to a fresh request. -/
def applyHeaders (hdrs : List (String × String)) : HeaderState :=
  hdrs.foldl (fun acc p => headerSet acc p.1 p.2) []

/-- `getBasicAuth` (identical on `APIClient` and `BaseClient`):
`base64.StdEncoding.EncodeToString([]byte(clientID + ":" + clientSecret))`. -/
def getBasicAuth (config : CleverbridgeConfig) : String :=
  base64Encode (utf8Bytes (config.clientID ++ ":" ++ config.clientSecret))

/-- `req.SetBasicAuth(user, pass)` from `net/http`: sets the Authorization
header to `"Basic " + base64(user + ":" + pass)`, replacing any existing
Authorization values. -/
def setBasicAuth (h : HeaderState) (username password : String) : HeaderState :=
  headerSet h "Authorization" ("Basic " ++ base64Encode (utf8Bytes (username ++ ":" ++ password)))

/-- Header state built by `APIClient.sendRequest` (part_001 lines 76-78):
three `Header.Set` calls on the freshly created request.  All three
`APIClient` operations go through this single function. -/
def apiClientRequestHeaders (config : CleverbridgeConfig) : HeaderState :=
  headerSet (headerSet (headerSet [] "Authorization" ("Basic " ++ getBasicAuth config))
    "Content-Type" "application/json") "Accept" "application/json"

/-- Header map literal built by `BaseClient.GetSubscription`
(part_000 lines 231-235). -/
def baseGetSubscriptionHeaders (config : CleverbridgeConfig) : List (String × String) :=
  [("Authorization", "Basic " ++ getBasicAuth config),
   ("Content-Type", "application/json"),
   ("Accept", "application/json")]

/-- Header map literal built by `BaseClient.GetSubscriptionsByPurchase`
(part_000 lines 257-261). -/
def baseGetSubscriptionsByPurchaseHeaders (config : CleverbridgeConfig) : List (String × String) :=
  [("Authorization", "Basic " ++ getBasicAuth config),
   ("Content-Type", "application/json"),
   ("Accept", "application/json")]

/-- Header map literal built by `BaseClient.GetSubscriptionsForCustomer`
(part_000 lines 283-287). -/
def baseGetSubscriptionsForCustomerHeaders (config : CleverbridgeConfig) : List (String × String) :=
  [("Authorization", "Basic " ++ getBasicAuth config),
   ("Content-Type", "application/json"),
   ("Accept", "application/json")]

/-- Header state built by `CleverbridgeClient.CleverbridgeDoRequest`
(part_000 lines 55-57): `SetBasicAuth` followed by two `Header.Set` calls. -/
def cleverbridgeRequestHeaders (config : CleverbridgeConfig) : HeaderState :=
  headerSet (headerSet (setBasicAuth [] config.clientID config.clientSecret)
    "Content-Type" "application/json") "Accept" "application/json"

/-! ### Query parameters -/

/-- Query parameter map built by `APIClient.GetSubscription`
(part_001 lines 134-137); the `isCurrent` argument is a Go `string`
forwarded verbatim. -/
def getSubscriptionQueryParams (subscriptionID isCurrent : String) : List (String × String) :=
  [("subscriptionId", subscriptionID), ("isCurrent", isCurrent)]

/-- Lookup of a query parameter value by key. -/
def lookupParam (params : List (String × String)) (key : String) : Option String :=
  params.lookup key

/-- The literal `isCurrent` argument passed by the demo entry point
(`main.go` line 21 calls `GetSubscription(ctx, "S18577447", "false")`). -/
def mainIsCurrentArg : String := "false"

/-! ### Logger (part_002 lines 55-135)

The output destination (`writer`) is irrelevant to what is emitted, so the
model records only the debug flag and the optional file handle, and each
logging call is a function returning the line written (`some line`) or
`none` when nothing is emitted. -/

/-- An `os.File` as far as `Close` is concerned: `os.File.Close` succeeds
once and returns an error on any further call ("file already closed"). -/
structure FileHandle where
  closed : Bool
  deriving Repr, DecidableEq

/-- `Logger` struct: debug flag and the optional log file handle
(`logFile` is `nil` for a console-backed logger). -/
structure Logger where
  debug : Bool
  logFile : Option FileHandle
  deriving Repr, DecidableEq

/-- `fmt.Sprintf(" %v", fields)` suffix appended when `len(fields) > 0`;
variadic fields are modelled as a list of rendered strings. -/
def fieldsSuffix (fields : List String) : String :=
  if 0 < fields.length then " [" ++ String.intercalate " " fields ++ "]" else ""

/-- `Logger.Info`: emits only when the debug flag is set. -/
def infoOutput (l : Logger) (message : String) (fields : List String) : Option String :=
  if l.debug then some ("INFO: " ++ message ++ fieldsSuffix fields) else none

/-- `Logger.Warn`: always emits. -/
def warnOutput (_l : Logger) (message : String) (fields : List String) : Option String :=
  some ("WARN: " ++ message ++ fieldsSuffix fields)

/-- `Logger.Error`: always emits; appends `" - <err>"` when a non-nil cause
is supplied. -/
def errorOutput (_l : Logger) (message : String) (cause : Option String)
    (fields : List String) : Option String :=
  some ("ERROR: " ++ message ++
    (match cause with | some e => " - " ++ e | none => "") ++ fieldsSuffix fields)

/-- `os.File.Close` semantics: nil error and mark closed on first call,
non-nil error thereafter. -/
def fileClose (f : FileHandle) : Option String × FileHandle :=
  if f.closed then (some "close: file already closed", f)
  else (none, { f with closed := true })

/-- `Logger.Close` (part_002 lines 79-84): `if l.logFile != nil { return
l.logFile.Close() }; return nil`.  The handle reference is kept (the field
is never cleared). -/
def loggerClose (l : Logger) : Option String × Logger :=
  match l.logFile with
  | some f =>
      let r := fileClose f
      (r.1, { l with logFile := some r.2 })
  | none => (none, l)

/-- `APIClient.Close` (part_002 lines 130-135): delegates to the logger's
`Close` when a logger is held, otherwise returns nil. -/
def apiClientClose (logger : Option Logger) : Option String × Option Logger :=
  match logger with
  | some l =>
      let r := loggerClose l
      (r.1, some r.2)
  | none => (none, none)

/-! ### JSON values and response bodies

`encoding/json` works on byte slices; the model works on an abstract JSON
syntax tree.  A response body is either a well-formed JSON document
(`jsonBody`) or a byte string that is not valid JSON (`textBody`); the raw
text of a `jsonBody` is its rendering. -/

/-- A JSON document.  Numbers are modelled as rationals (JSON decimal
literals; Go decodes them into `float64`, whose decimal round trip is
exact, so rationals are a faithful stand-in for the codec claims). -/
inductive Json where
  | null : Json
  | bool : Bool → Json
  | num : Rat → Json
  | str : String → Json
  | arr : List Json → Json
  | obj : List (String × Json) → Json

/-- A response body as handed to `json.Unmarshal`. -/
inductive Body where
  | jsonBody : Json → Body
  | textBody : String → Body

/-- Minimal JSON string escaping (quote and backslash; enough to render the
bodies the claims mention). -/
def escapeJsonChar (c : Char) : String :=
  if c = '"' then "\\\"" else if c = '\\' then "\\\\" else String.singleton c

/-- Escape a string for JSON rendering. -/
def escapeJson (s : String) : String := String.join (s.toList.map escapeJsonChar)

mutual

/-- Render a JSON document back to text (the `string(bodyBytes)` view of a
well-formed body). -/
def renderJson : Json → String
  | .null => "null"
  | .bool b => cond b "true" "false"
  | .num q => if q.den = 1 then toString q.num else toString q.num ++ "/" ++ toString q.den
  | .str s => "\"" ++ escapeJson s ++ "\""
  | .arr xs => "[" ++ renderJsonList xs ++ "]"
  | .obj fs => "\x7b" ++ renderJsonFields fs ++ "\x7d"

/-- Render the elements of a JSON array, comma-separated. -/
def renderJsonList : List Json → String
  | [] => ""
  | [x] => renderJson x
  | x :: rest => renderJson x ++ "," ++ renderJsonList rest

/-- Render the members of a JSON object, comma-separated. -/
def renderJsonFields : List (String × Json) → String
  | [] => ""
  | [(k, v)] => "\"" ++ escapeJson k ++ "\":" ++ renderJson v
  | (k, v) :: rest => "\"" ++ escapeJson k ++ "\":" ++ renderJson v ++ "," ++ renderJsonFields rest

end

/-- The raw text of a body (`string(responseBody)` in the source). -/
def rawOfBody : Body → String
  | .jsonBody j => renderJson j
  | .textBody s => s

/-- Field lookup in a JSON object; for duplicate keys `encoding/json` lets
the last occurrence win. -/
def lookupField (fields : List (String × Json)) (key : String) : Option Json :=
  fields.foldl (fun acc p => if p.1 == key then some p.2 else acc) none

/-! ### The Subscription codec

Go's `json.Unmarshal` into a struct: an absent key or a JSON `null` leaves
the field at its zero value; a present key whose JSON type does not match
the field's type is an error; a document that is not an object (and not
`null`) is an error.  `time.Time` fields are carried by their RFC 3339
serialization: the model stores the serialized string and checks the
RFC 3339 shape on decode (Go's `time.Time.UnmarshalJSON` rejects anything
else); the zero `time.Time` renders as `0001-01-01T00:00:00Z`. -/

/-- Decode a string-typed struct field from an object. -/
def getStrField (fields : List (String × Json)) (key : String) : Except String String :=
  match lookupField fields key with
  | none => .ok ""
  | some .null => .ok ""
  | some (.str s) => .ok s
  | some _ => .error ("json: cannot unmarshal value into field " ++ key ++ " of type string")

/-- The rendering of the zero `time.Time`. -/
def zeroTimeStr : String := "0001-01-01T00:00:00Z"

/-- Time-zone suffix of an RFC 3339 timestamp: `Z` or `±hh:mm`. -/
def rfc3339Zone : List Char → Bool
  | ['Z'] => true
  | [c, h1, h2, ':', m1, m2] =>
      (c == '+' || c == '-') && h1.isDigit && h2.isDigit && m1.isDigit && m2.isDigit
  | _ => false

/-- Structural check that a string has the RFC 3339 timestamp shape
`YYYY-MM-DDThh:mm:ss[.fraction](Z|±hh:mm)` (an abstraction of Go's
`time.Parse(time.RFC3339, s)` succeeding). -/
def isRFC3339 (s : String) : Bool :=
  match s.toList with
  | y1 :: y2 :: y3 :: y4 :: '-' :: mo1 :: mo2 :: '-' :: d1 :: d2 :: 'T' ::
      h1 :: h2 :: ':' :: mi1 :: mi2 :: ':' :: s1 :: s2 :: rest =>
      ([y1, y2, y3, y4, mo1, mo2, d1, d2, h1, h2, mi1, mi2, s1, s2].all Char.isDigit) &&
      (match rest with
        | '.' :: fr =>
            let p := fr.span Char.isDigit
            decide (0 < p.1.length) && rfc3339Zone p.2
        | _ => rfc3339Zone rest)
  | _ => false

/-- Decode a `time.Time`-typed struct field from an object. -/
def getTimeField (fields : List (String × Json)) (key : String) : Except String String :=
  match lookupField fields key with
  | none => .ok zeroTimeStr
  | some .null => .ok zeroTimeStr
  | some (.str s) =>
      if isRFC3339 s then .ok s
      else .error ("parsing time " ++ s ++ " as RFC3339: cannot parse")
  | some _ => .error ("json: cannot unmarshal value into field " ++ key ++ " of type Time")

/-- Decode a `float64`-typed struct field from an object. -/
def getNumField (fields : List (String × Json)) (key : String) : Except String Rat :=
  match lookupField fields key with
  | none => .ok 0
  | some .null => .ok 0
  | some (.num q) => .ok q
  | some _ => .error ("json: cannot unmarshal value into field " ++ key ++ " of type float64")

/-- The `Subscription` struct (part_002 lines 13-26); `time.Time` fields are
carried as their RFC 3339 strings, `float64` as a rational. -/
structure Subscription where
  id : String
  status : String
  plan : String
  createdAt : String
  customerID : String
  productID : String
  nextBillingDate : String
  currentPeriodEnd : String
  amount : Rat
  currency : String
  billingCycle : String
  purchaseID : String
  deriving Repr, DecidableEq

/-- The zero value of `Subscription`. -/
def zeroSubscription : Subscription :=
  ⟨"", "", "", zeroTimeStr, "", "", zeroTimeStr, zeroTimeStr, 0, "", "", ""⟩

/-- `json.Unmarshal` of one document into `Subscription`: `null` is a no-op
(zero struct), an object decodes field by field with absent keys defaulted,
anything else is an error. -/
def unmarshalSubscription : Json → Except String Subscription
  | .null => .ok zeroSubscription
  | .obj fields => do
      let id ← getStrField fields "id"
      let status ← getStrField fields "status"
      let plan ← getStrField fields "plan"
      let createdAt ← getTimeField fields "created_at"
      let customerID ← getStrField fields "customer_id"
      let productID ← getStrField fields "product_id"
      let nextBillingDate ← getTimeField fields "next_billing_date"
      let currentPeriodEnd ← getTimeField fields "current_period_end"
      let amount ← getNumField fields "amount"
      let currency ← getStrField fields "currency"
      let billingCycle ← getStrField fields "billing_cycle"
      let purchaseID ← getStrField fields "purchase_id"
      .ok ⟨id, status, plan, createdAt, customerID, productID, nextBillingDate,
        currentPeriodEnd, amount, currency, billingCycle, purchaseID⟩
  | _ => .error "json: cannot unmarshal value into Go value of type client.Subscription"

/-- `json.Marshal` of a `Subscription`: an object with the struct's tag
names in field order. -/
def marshalSubscription (s : Subscription) : Json :=
  .obj [("id", .str s.id), ("status", .str s.status), ("plan", .str s.plan),
    ("created_at", .str s.createdAt), ("customer_id", .str s.customerID),
    ("product_id", .str s.productID), ("next_billing_date", .str s.nextBillingDate),
    ("current_period_end", .str s.currentPeriodEnd), ("amount", .num s.amount),
    ("currency", .str s.currency), ("billing_cycle", .str s.billingCycle),
    ("purchase_id", .str s.purchaseID)]

/-- Decode each element of a JSON array as a `Subscription`, stopping at the
first failure (as the streaming decoder does). -/
def unmarshalSubscriptionList : List Json → Except String (List Subscription)
  | [] => .ok []
  | j :: rest => do
      let s ← unmarshalSubscription j
      let tail ← unmarshalSubscriptionList rest
      .ok (s :: tail)

/-- `json.Unmarshal` into a `[]Subscription` variable: `null` leaves the
slice `nil` (modelled `none`), an array yields a non-nil slice (`some`),
anything else is an error. -/
def unmarshalSubscriptions : Json → Except String (Option (List Subscription))
  | .null => .ok none
  | .arr xs => (unmarshalSubscriptionList xs).map some
  | _ => .error "json: cannot unmarshal value into Go value of type []client.Subscription"

/-- `json.Unmarshal` applied to a body that may not be valid JSON. -/
def unmarshalBodySubscription : Body → Except String Subscription
  | .jsonBody j => unmarshalSubscription j
  | .textBody s => .error ("invalid character in " ++ s)

/-- `json.Unmarshal` into `[]Subscription` applied to a raw body. -/
def unmarshalBodySubscriptions : Body → Except String (Option (List Subscription))
  | .jsonBody j => unmarshalSubscriptions j
  | .textBody s => .error ("invalid character in " ++ s)

/-! ### `APIClient` pipeline (part_001)

The HTTP round trip is mocked by its observable outcome: the response
status code and body.  `sendRequest` (lines 118-127) turns a status of 400
or more into an error and otherwise hands back the body bytes; each
operation wraps errors with call context and decodes the body. -/

/-- Status/body handling of `APIClient.sendRequest`: on status >= 400 the
body bytes are folded into the error message and only the error is
returned; otherwise the body bytes are returned. -/
def apiSendRequest (statusCode : Nat) (body : Body) : Except String Body :=
  if 400 ≤ statusCode then
    .error ("API error: status " ++ toString statusCode ++ ", body: " ++ rawOfBody body)
  else .ok body

/-- `APIClient.GetSubscription` (part_001 lines 129-160) on a mocked
response, returning the Go `(*Subscription, error)` pair as a pair of
options. -/
def apiGetSubscription (statusCode : Nat) (body : Body) :
    Option Subscription × Option String :=
  match apiSendRequest statusCode body with
  | .error e => (none, some ("failed to get subscription: " ++ e))
  | .ok b =>
      match unmarshalBodySubscription b with
      | .error e => (none, some ("failed to parse subscription: " ++ e))
      | .ok s => (some s, none)

/-- `APIClient.GetSubscriptionsByPurchase` (part_001 lines 162-189) on a
mocked response, returning the Go `([]Subscription, error)` pair; the slice
component is `none` when the Go slice is nil. -/
def apiGetSubscriptionsByPurchase (statusCode : Nat) (body : Body) :
    Option (List Subscription) × Option String :=
  match apiSendRequest statusCode body with
  | .error e => (none, some ("failed to get subscriptions by purchase: " ++ e))
  | .ok b =>
      match unmarshalBodySubscriptions b with
      | .error e => (none, some ("failed to parse subscriptions: " ++ e))
      | .ok v => (v, none)

/-- `APIClient.GetSubscriptionsForCustomer` (part_001 lines 191-218) on a
mocked response. -/
def apiGetSubscriptionsForCustomer (statusCode : Nat) (body : Body) :
    Option (List Subscription) × Option String :=
  match apiSendRequest statusCode body with
  | .error e => (none, some ("failed to get subscriptions for customer: " ++ e))
  | .ok b =>
      match unmarshalBodySubscriptions b with
      | .error e => (none, some ("failed to parse subscriptions: " ++ e))
      | .ok v => (v, none)

/-! ### `BaseClient` pipeline (part_000 lines 160-301) -/

/-- The `Response` struct: the response descriptor handed to callers. -/
structure Response where
  statusCode : Nat
  body : Body
  headers : HeaderState

/-- Status/body handling of `BaseClient.SendRequest` (part_000 lines
207-221): the descriptor is always constructed from the wire result and
returned; a status of 400 or more additionally returns an API error, so the
caller still holds the descriptor. -/
def baseSendRequest (statusCode : Nat) (body : Body) (headers : HeaderState) :
    Option Response × Option String :=
  let response : Response := ⟨statusCode, body, headers⟩
  if 400 ≤ statusCode then
    (some response,
      some ("API error: status " ++ toString statusCode ++ ", body: " ++ rawOfBody body))
  else (some response, none)

/-- `BaseClient.GetSubscriptionsByPurchase` (part_000 lines 250-275) on a
mocked response: any `SendRequest` error is wrapped and returned with a nil
slice, otherwise the descriptor's body is decoded. -/
def baseGetSubscriptionsByPurchase (statusCode : Nat) (body : Body) (headers : HeaderState) :
    Option (List Subscription) × Option String :=
  match baseSendRequest statusCode body headers with
  | (_, some e) => (none, some ("failed to get subscriptions by purchase: " ++ e))
  | (some resp, none) =>
      match unmarshalBodySubscriptions resp.body with
      | .error e => (none, some ("failed to parse subscriptions: " ++ e))
      | .ok v => (v, none)
  | (none, none) => (none, none)

/-! ### `CleverbridgeClient` error reporting (part_000 lines 69-111)

On a status of 400 or more, `CleverbridgeDoRequest` reads the body and
first tries to unmarshal it as `struct{ Error, Message string }`; only when
that unmarshal succeeds AND the `error` field is non-empty does it report
the structured message, otherwise it falls through to raw-body reporting.
`resp.Status` (the textual status line such as `"404 Not Found"`) is a
parameter. -/

/-- `json.Unmarshal` into the anonymous `struct{ Error string; Message
string }` of `CleverbridgeDoRequest`. -/
def unmarshalCleverbridgeError : Json → Except String (String × String)
  | .null => .ok ("", "")
  | .obj fields => do
      let e ← getStrField fields "error"
      let m ← getStrField fields "message"
      .ok (e, m)
  | _ => .error "json: cannot unmarshal value into Go value of type struct"

/-- The raw-body fall-through message (part_000 line 108). -/
def cbFallthroughMessage (statusText : String) (body : Body) : String :=
  "request failed with status: " ++ statusText ++ ", response: " ++ rawOfBody body

/-- The error message produced by `CleverbridgeDoRequest` for a response
with status >= 400 (part_000 lines 84-108): structured when the body
unmarshals into the error struct with a non-empty `error` field, raw-body
fall-through otherwise. -/
def cleverbridgeErrorMessage (statusText : String) (body : Body) : String :=
  match body with
  | .jsonBody j =>
      match unmarshalCleverbridgeError j with
      | .ok em =>
          if em.1 == "" then cbFallthroughMessage statusText body
          else "Cleverbridge API error: " ++ em.1 ++ " - " ++ em.2
      | .error _ => cbFallthroughMessage statusText body
  | .textBody _ => cbFallthroughMessage statusText body

/-! ### Schema characterization (spec side)

An independent boolean description of which JSON documents decode into a
`Subscription`, written from the decoding rules of `encoding/json` rather
than from the monadic decoder, to compare the two. -/

/-- Did a decode succeed? -/
def exOk {α : Type} : Except String α → Bool
  | .ok _ => true
  | .error _ => false

/-- A string-typed field is acceptable when absent, `null`, or a string. -/
def strFieldOk (fields : List (String × Json)) (key : String) : Bool :=
  match lookupField fields key with
  | none => true
  | some .null => true
  | some (.str _) => true
  | some _ => false

/-- A time-typed field is acceptable when absent, `null`, or an RFC 3339
string. -/
def timeFieldOk (fields : List (String × Json)) (key : String) : Bool :=
  match lookupField fields key with
  | none => true
  | some .null => true
  | some (.str s) => isRFC3339 s
  | some _ => false

/-- A float-typed field is acceptable when absent, `null`, or a number. -/
def numFieldOk (fields : List (String × Json)) (key : String) : Bool :=
  match lookupField fields key with
  | none => true
  | some .null => true
  | some (.num _) => true
  | some _ => false

/-- All twelve `Subscription` fields are acceptable in an object. -/
def subscriptionFieldsOk (fields : List (String × Json)) : Bool :=
  strFieldOk fields "id" && (strFieldOk fields "status" && (strFieldOk fields "plan" &&
    (timeFieldOk fields "created_at" && (strFieldOk fields "customer_id" &&
    (strFieldOk fields "product_id" && (timeFieldOk fields "next_billing_date" &&
    (timeFieldOk fields "current_period_end" && (numFieldOk fields "amount" &&
    (strFieldOk fields "currency" && (strFieldOk fields "billing_cycle" &&
    strFieldOk fields "purchase_id"))))))))))

/-- The documents `json.Unmarshal` accepts for `Subscription`: `null`, or
an object whose present fields are type-correct.  Objects omitting fields
are accepted (fields default), non-objects are rejected. -/
def jsonMatchesSubscriptionSchema : Json → Bool
  | .null => true
  | .obj fields => subscriptionFieldsOk fields
  | _ => false

/-- A concrete well-formed subscription record used as evaluation witness. -/
def subExample : Subscription :=
  ⟨"S18577447", "active", "gold", "2024-01-02T03:04:05Z", "CUST12345", "PROD9",
    "2024-02-02T03:04:05Z", "2024-02-29T00:00:00Z", (99 : Rat) / 10, "USD",
    "monthly", "P123456789"⟩

/-! ## Theorems -/

/-- Claim C1: on every configuration, each client operation's outgoing
request carries exactly one `Authorization` header valued `"Basic "` ++
base64(clientID ++ ":" ++ clientSecret), exactly one
`Content-Type: application/json` and exactly one `Accept: application/json`
header: this holds for the shared `APIClient.sendRequest` header
construction (used by all three `APIClient` operations), for the header
maps of the three `BaseClient` operations as applied by
`BaseClient.SendRequest`, and for `CleverbridgeClient.CleverbridgeDoRequest`. -/
theorem claim1_auth_and_json_headers (config : CleverbridgeConfig) :
    (headerValues (apiClientRequestHeaders config) "Authorization"
        = ["Basic " ++ base64Encode (utf8Bytes (config.clientID ++ ":" ++ config.clientSecret))]
      ∧ headerValues (apiClientRequestHeaders config) "Content-Type" = ["application/json"]
      ∧ headerValues (apiClientRequestHeaders config) "Accept" = ["application/json"])
    ∧ (headerValues (applyHeaders (baseGetSubscriptionHeaders config)) "Authorization"
        = ["Basic " ++ base64Encode (utf8Bytes (config.clientID ++ ":" ++ config.clientSecret))]
      ∧ headerValues (applyHeaders (baseGetSubscriptionHeaders config)) "Content-Type"
        = ["application/json"]
      ∧ headerValues (applyHeaders (baseGetSubscriptionHeaders config)) "Accept"
        = ["application/json"])
    ∧ (headerValues (applyHeaders (baseGetSubscriptionsByPurchaseHeaders config)) "Authorization"
        = ["Basic " ++ base64Encode (utf8Bytes (config.clientID ++ ":" ++ config.clientSecret))]
      ∧ headerValues (applyHeaders (baseGetSubscriptionsByPurchaseHeaders config)) "Content-Type"
        = ["application/json"]
      ∧ headerValues (applyHeaders (baseGetSubscriptionsByPurchaseHeaders config)) "Accept"
        = ["application/json"])
    ∧ (headerValues (applyHeaders (baseGetSubscriptionsForCustomerHeaders config)) "Authorization"
        = ["Basic " ++ base64Encode (utf8Bytes (config.clientID ++ ":" ++ config.clientSecret))]
      ∧ headerValues (applyHeaders (baseGetSubscriptionsForCustomerHeaders config)) "Content-Type"
        = ["application/json"]
      ∧ headerValues (applyHeaders (baseGetSubscriptionsForCustomerHeaders config)) "Accept"
        = ["application/json"])
    ∧ (headerValues (cleverbridgeRequestHeaders config) "Authorization"
        = ["Basic " ++ base64Encode (utf8Bytes (config.clientID ++ ":" ++ config.clientSecret))]
      ∧ headerValues (cleverbridgeRequestHeaders config) "Content-Type" = ["application/json"]
      ∧ headerValues (cleverbridgeRequestHeaders config) "Accept" = ["application/json"]) :=
  ⟨⟨rfl, rfl, rfl⟩, ⟨rfl, rfl, rfl⟩, ⟨rfl, rfl, rfl⟩, ⟨rfl, rfl, rfl⟩, ⟨rfl, rfl, rfl⟩⟩

/-- Claim C2: for every response with status at least 400,
`BaseClient.SendRequest` returns the response descriptor (status code, body
bytes, headers) together with the API error, so the caller can still
inspect the failed response. -/
theorem claim2_descriptor_alongside_error (statusCode : Nat) (body : Body)
    (headers : HeaderState) (h : 400 ≤ statusCode) :
    baseSendRequest statusCode body headers
      = (some ⟨statusCode, body, headers⟩,
          some ("API error: status " ++ toString statusCode ++ ", body: " ++ rawOfBody body)) := by
  simp [baseSendRequest, h]

/-- Witness for claim C2 at a concrete 404 response. -/
theorem claim2_descriptor_alongside_error_witness :
    400 ≤ 404 ∧
      baseSendRequest 404 (Body.textBody "oops") []
        = (some ⟨404, Body.textBody "oops", []⟩,
            some ("API error: status " ++ toString 404 ++ ", body: "
              ++ rawOfBody (Body.textBody "oops"))) :=
  ⟨by decide, claim2_descriptor_alongside_error 404 (Body.textBody "oops") [] (by decide)⟩

/-- Claim C3: on a status >= 400 body that is the JSON object
`(error: e, message: m)`, a non-empty `e` yields a structured message
containing both `e` and `m`; an empty `e` falls through to raw-body
reporting (containing the status text and the rendered raw body) even when
`m` is non-empty, as does a body that is not such an object. -/
theorem claim3_error_body_precedence (statusText e m raw : String) :
    (e ≠ "" →
      ∃ pre mid,
        cleverbridgeErrorMessage statusText
            (.jsonBody (.obj [("error", .str e), ("message", .str m)]))
          = pre ++ e ++ mid ++ m)
    ∧ cleverbridgeErrorMessage statusText
          (.jsonBody (.obj [("error", .str ""), ("message", .str m)]))
        = "request failed with status: " ++ statusText ++ ", response: "
            ++ rawOfBody (.jsonBody (.obj [("error", .str ""), ("message", .str m)]))
    ∧ cleverbridgeErrorMessage statusText (.textBody raw)
        = "request failed with status: " ++ statusText ++ ", response: " ++ raw := by
  refine ⟨fun he => ⟨"Cleverbridge API error: ", " - ", ?_⟩, rfl, rfl⟩
  have hb : (e == "") = false := beq_eq_false_iff_ne.mpr he
  have key : cleverbridgeErrorMessage statusText
      (.jsonBody (.obj [("error", .str e), ("message", .str m)]))
      = if (e == "") then
          cbFallthroughMessage statusText
            (.jsonBody (.obj [("error", .str e), ("message", .str m)]))
        else "Cleverbridge API error: " ++ e ++ " - " ++ m := rfl
  rw [key, hb]
  simp

/-- Witness for claim C3 on the spec's own example body. -/
theorem claim3_error_body_precedence_witness :
    "invalid_id" ≠ "" ∧
      ∃ pre mid,
        cleverbridgeErrorMessage "404 Not Found"
            (.jsonBody (.obj [("error", .str "invalid_id"), ("message", .str "not found")]))
          = pre ++ "invalid_id" ++ mid ++ "not found" :=
  ⟨by decide,
    (claim3_error_body_precedence "404 Not Found" "invalid_id" "not found" "x").1 (by decide)⟩

/-- Claim C5, counterexample: `APIClient.GetSubscription` takes `isCurrent`
as a Go string and forwards it verbatim into the query, so the `isCurrent`
query value can be a string other than the literals `"true"`/`"false"`. -/
theorem claim5_counterexample :
    lookupParam (getSubscriptionQueryParams "S18577447" "banana") "isCurrent" = some "banana"
      ∧ "banana" ≠ "true" ∧ "banana" ≠ "false" :=
  ⟨rfl, by decide, by decide⟩

/-- Claim C5 as amended: the query always contains the keys
`subscriptionId` and `isCurrent`; the `isCurrent` value is exactly the
string argument the caller passed (the demo entry point passes the literal
`"false"`). -/
theorem claim5_amended_query_keys (subscriptionID isCurrent : String) :
    lookupParam (getSubscriptionQueryParams subscriptionID isCurrent) "subscriptionId"
        = some subscriptionID
    ∧ lookupParam (getSubscriptionQueryParams subscriptionID isCurrent) "isCurrent"
        = some isCurrent
    ∧ (mainIsCurrentArg = "true" ∨ mainIsCurrentArg = "false") :=
  ⟨rfl, rfl, Or.inr rfl⟩

/-- Claim C6: a 200 response whose body is the JSON array `[]` makes
`GetSubscriptionsByPurchase` succeed with the empty sequence and no error,
in both the `APIClient` and the `BaseClient` variant. -/
theorem claim6_empty_array_success :
    apiGetSubscriptionsByPurchase 200 (Body.jsonBody (Json.arr [])) = (some [], none)
    ∧ baseGetSubscriptionsByPurchase 200 (Body.jsonBody (Json.arr [])) [] = (some [], none) :=
  ⟨rfl, rfl⟩

/-- Claim C8: `Info` emits output exactly when the debug flag is set,
`Warn` and `Error` always emit, and `Error` renders a supplied cause
alongside the message. -/
theorem claim8_logger_levels (l : Logger) (message cause : String) (fields : List String) :
    (infoOutput l message fields).isSome = l.debug
    ∧ (warnOutput l message fields).isSome = true
    ∧ (errorOutput l message none fields).isSome = true
    ∧ errorOutput l message (some cause) fields
        = some ("ERROR: " ++ message ++ (" - " ++ cause) ++ fieldsSuffix fields) := by
  refine ⟨?_, rfl, rfl, rfl⟩
  cases h : l.debug <;> simp [infoOutput, h]

/-- Claim C9, counterexample: on a file-backed logger a first `Close`
succeeds but a second `Close` returns an error (the handle field is never
cleared and `os.File.Close` fails on a closed file), so `Close` is not
idempotent as claimed. -/
theorem claim9_counterexample :
    (loggerClose ⟨true, some ⟨false⟩⟩).1 = none
    ∧ (loggerClose (loggerClose ⟨true, some ⟨false⟩⟩).2).1
        = some "close: file already closed" :=
  ⟨rfl, rfl⟩

/-- Claim C9 as amended: `Close` releases the held file handle if any; on a
console-backed logger (and on an `APIClient` holding no logger) it is a
no-op that returns no error and may be repeated; on a file-backed logger
the first `Close` succeeds but a second `Close` returns an error, and
`APIClient.Close` simply delegates to the logger. -/
theorem claim9_amended_close (l : Logger) (f : FileHandle) :
    (l.logFile = none → loggerClose l = (none, l))
    ∧ apiClientClose none = (none, none)
    ∧ (l.logFile = some f → f.closed = false →
        (loggerClose l).1 = none
        ∧ ((loggerClose (loggerClose l).2).1).isSome = true
        ∧ apiClientClose (some l) = ((loggerClose l).1, some (loggerClose l).2)) := by
  refine ⟨?_, rfl, ?_⟩
  · intro h
    simp [loggerClose, h]
  · intro hf hc
    refine ⟨?_, ?_, rfl⟩
    · simp [loggerClose, hf, fileClose, hc]
    · simp [loggerClose, hf, fileClose, hc]

/-- Witness for claim C9 as amended: a console-backed logger and a
file-backed logger with an open handle. -/
theorem claim9_amended_close_witness :
    ((⟨false, none⟩ : Logger).logFile = none
      ∧ loggerClose ⟨false, none⟩ = (none, ⟨false, none⟩))
    ∧ ((⟨true, some ⟨false⟩⟩ : Logger).logFile = some ⟨false⟩
      ∧ (⟨false⟩ : FileHandle).closed = false
      ∧ (loggerClose ⟨true, some ⟨false⟩⟩).1 = none
      ∧ ((loggerClose (loggerClose ⟨true, some ⟨false⟩⟩).2).1).isSome = true) :=
  ⟨⟨rfl, (claim9_amended_close ⟨false, none⟩ ⟨false⟩).1 rfl⟩,
   ⟨rfl, rfl,
    ((claim9_amended_close ⟨true, some ⟨false⟩⟩ ⟨false⟩).2.2 rfl rfl).1,
    ((claim9_amended_close ⟨true, some ⟨false⟩⟩ ⟨false⟩).2.2 rfl rfl).2.1⟩⟩

/-- The decoder for a string field succeeds exactly when the field check
accepts it. -/
theorem exOk_getStrField (fields : List (String × Json)) (key : String) :
    exOk (getStrField fields key) = strFieldOk fields key := by
  unfold getStrField strFieldOk
  cases lookupField fields key with
  | none => rfl
  | some j => cases j <;> rfl

/-- The decoder for a time field succeeds exactly when the field check
accepts it. -/
theorem exOk_getTimeField (fields : List (String × Json)) (key : String) :
    exOk (getTimeField fields key) = timeFieldOk fields key := by
  unfold getTimeField timeFieldOk
  cases lookupField fields key with
  | none => rfl
  | some j =>
      cases j with
      | str s => cases h : isRFC3339 s <;> simp [h, exOk]
      | null => rfl
      | bool b => rfl
      | num q => rfl
      | arr xs => rfl
      | obj fs => rfl

/-- The decoder for a number field succeeds exactly when the field check
accepts it. -/
theorem exOk_getNumField (fields : List (String × Json)) (key : String) :
    exOk (getNumField fields key) = numFieldOk fields key := by
  unfold getNumField numFieldOk
  cases lookupField fields key with
  | none => rfl
  | some j => cases j <;> rfl

/-- Claim C4, counterexample: a 200 response whose body is the well-formed
JSON object with no members — which omits every schema field — is not
rejected: `APIClient.GetSubscription` succeeds and returns the record with
every field at its zero value. -/
theorem claim4_counterexample :
    apiGetSubscription 200 (Body.jsonBody (Json.obj [])) = (some zeroSubscription, none) := rfl

/-- Claim C4 as amended: for a 200 response, decoding fails exactly when
the payload is not `null` and not a JSON object whose present schema
fields are type-correct; a well-formed object that omits schema fields is
decoded with the missing fields defaulted to zero values, not rejected. -/
theorem claim4_amended_decode_characterization (j : Json) :
    exOk (unmarshalSubscription j) = jsonMatchesSubscriptionSchema j := by
  cases j with
  | null => rfl
  | bool b => rfl
  | num q => rfl
  | str s => rfl
  | arr xs => rfl
  | obj fields =>
      show exOk (unmarshalSubscription (Json.obj fields)) = subscriptionFieldsOk fields
      simp only [unmarshalSubscription]
      unfold subscriptionFieldsOk
      rw [← exOk_getStrField fields "id", ← exOk_getStrField fields "status",
          ← exOk_getStrField fields "plan", ← exOk_getTimeField fields "created_at",
          ← exOk_getStrField fields "customer_id", ← exOk_getStrField fields "product_id",
          ← exOk_getTimeField fields "next_billing_date",
          ← exOk_getTimeField fields "current_period_end", ← exOk_getNumField fields "amount",
          ← exOk_getStrField fields "currency", ← exOk_getStrField fields "billing_cycle",
          ← exOk_getStrField fields "purchase_id"]
      cases getStrField fields "id" with
      | error e => rfl
      | ok v1 =>
      cases getStrField fields "status" with
      | error e => rfl
      | ok v2 =>
      cases getStrField fields "plan" with
      | error e => rfl
      | ok v3 =>
      cases getTimeField fields "created_at" with
      | error e => rfl
      | ok v4 =>
      cases getStrField fields "customer_id" with
      | error e => rfl
      | ok v5 =>
      cases getStrField fields "product_id" with
      | error e => rfl
      | ok v6 =>
      cases getTimeField fields "next_billing_date" with
      | error e => rfl
      | ok v7 =>
      cases getTimeField fields "current_period_end" with
      | error e => rfl
      | ok v8 =>
      cases getNumField fields "amount" with
      | error e => rfl
      | ok v9 =>
      cases getStrField fields "currency" with
      | error e => rfl
      | ok v10 =>
      cases getStrField fields "billing_cycle" with
      | error e => rfl
      | ok v11 =>
      cases getStrField fields "purchase_id" with
      | error e => rfl
      | ok v12 => rfl

/-- Claim C7: encoding a well-formed `Subscription` and feeding it back as
the body of a mocked 200 response decodes to a record equal to the
original, field by field ("well-formed" meaning the three timestamp fields
carry RFC 3339 serializations, which every marshalable `time.Time` has). -/
theorem claim7_roundtrip (s : Subscription)
    (h1 : isRFC3339 s.createdAt = true)
    (h2 : isRFC3339 s.nextBillingDate = true)
    (h3 : isRFC3339 s.currentPeriodEnd = true) :
    apiGetSubscription 200 (Body.jsonBody (marshalSubscription s)) = (some s, none) := by
  simp [apiGetSubscription, apiSendRequest, unmarshalBodySubscription, marshalSubscription,
    unmarshalSubscription, getStrField, getTimeField, getNumField, lookupField, h1, h2, h3]
  rfl

/-- Witness for claim C7 at a concrete well-formed record. -/
theorem claim7_roundtrip_witness :
    isRFC3339 subExample.createdAt = true
    ∧ isRFC3339 subExample.nextBillingDate = true
    ∧ isRFC3339 subExample.currentPeriodEnd = true
    ∧ apiGetSubscription 200 (Body.jsonBody (marshalSubscription subExample))
        = (some subExample, none) :=
  ⟨by decide, by decide, by decide,
    claim7_roundtrip subExample (by decide) (by decide) (by decide)⟩

/-- Claim C10, counterexample: a 200 response whose body is the JSON
document `null` makes `APIClient.GetSubscriptionsByPurchase` return a nil
slice AND a nil error (Go decodes JSON `null` into a nil slice without
error), so the pair is "both nil", contradicting the claimed exclusivity. -/
theorem claim10_counterexample :
    apiGetSubscriptionsByPurchase 200 (Body.jsonBody Json.null) = (none, none) := rfl

/-- Claim C10 as amended: `GetSubscription` returns exactly one of a
non-nil record or a non-nil error; the sequence operations never return
both non-nil, but they return a nil slice together with a nil error
exactly when a sub-400 response carries the JSON body `null`. -/
theorem claim10_amended_exclusivity (statusCode : Nat) (body : Body) :
    ((apiGetSubscription statusCode body).1.isSome
        = (apiGetSubscription statusCode body).2.isNone)
    ∧ (((apiGetSubscriptionsByPurchase statusCode body).1.isSome
        && (apiGetSubscriptionsByPurchase statusCode body).2.isSome) = false)
    ∧ (((apiGetSubscriptionsForCustomer statusCode body).1.isSome
        && (apiGetSubscriptionsForCustomer statusCode body).2.isSome) = false)
    ∧ (((apiGetSubscriptionsByPurchase statusCode body).1 = none
          ∧ (apiGetSubscriptionsByPurchase statusCode body).2 = none)
        ↔ (statusCode < 400 ∧ body = Body.jsonBody Json.null)) := by
  unfold apiGetSubscription apiGetSubscriptionsByPurchase apiGetSubscriptionsForCustomer
    apiSendRequest
  by_cases h : 400 ≤ statusCode
  · simp [h, Nat.not_lt.mpr h]
  · have h' : statusCode < 400 := Nat.not_le.mp h
    cases body with
    | textBody s => simp [h, unmarshalBodySubscription, unmarshalBodySubscriptions]
    | jsonBody j =>
        cases j with
        | null =>
            simp [h, h', unmarshalBodySubscription, unmarshalBodySubscriptions,
              unmarshalSubscription, unmarshalSubscriptions]
        | bool b =>
            simp [h, unmarshalBodySubscription, unmarshalBodySubscriptions,
              unmarshalSubscription, unmarshalSubscriptions]
        | num q =>
            simp [h, unmarshalBodySubscription, unmarshalBodySubscriptions,
              unmarshalSubscription, unmarshalSubscriptions]
        | str s =>
            simp [h, unmarshalBodySubscription, unmarshalBodySubscriptions,
              unmarshalSubscription, unmarshalSubscriptions]
        | arr xs =>
            cases hl : unmarshalSubscriptionList xs with
            | error e =>
                simp [h, unmarshalBodySubscription, unmarshalBodySubscriptions,
                  unmarshalSubscription, unmarshalSubscriptions, hl, Except.map]
            | ok v =>
                simp [h, unmarshalBodySubscription, unmarshalBodySubscriptions,
                  unmarshalSubscription, unmarshalSubscriptions, hl, Except.map]
        | obj fields =>
            cases hu : unmarshalSubscription (Json.obj fields) with
            | error e =>
                simp [h, unmarshalBodySubscription, unmarshalBodySubscriptions,
                  unmarshalSubscriptions, hu]
            | ok s =>
                simp [h, unmarshalBodySubscription, unmarshalBodySubscriptions,
                  unmarshalSubscriptions, hu]

end CbApi
